import Mathlib

/-!
Verification of the star-map generator (`sky.py`).

The program resolves a fixed catalog of stars plus Sun and Moon to local
horizontal coordinates (delegated to an external astronomy library, modelled
here as the `az`/`alt` inputs), filters them by class-specific visibility
thresholds, projects them onto an N×N character grid by a polar-to-Cartesian
mapping, renders the grid as a bordered ASCII block, optionally applies an
ANSI-color substitution pass, and composes console and file reports.

Floating-point numbers of the source are modelled as real numbers; Python's
`round` (round-half-to-even) is modelled exactly on ℝ.
-/

namespace Sky

/-- Python's `round` on a real value: round half to even, producing an
integer (the source wraps it in `int(...)`). -/
noncomputable def pyRound (v : ℝ) : ℤ :=
  if Int.fract v < 1/2 then ⌊v⌋
  else if 1/2 < Int.fract v then ⌊v⌋ + 1
  else if ⌊v⌋ % 2 = 0 then ⌊v⌋ else ⌊v⌋ + 1

/-- `math.radians`: degrees to radians. -/
noncomputable def math_radians (deg : ℝ) : ℝ := deg * Real.pi / 180

/-- The polar-to-Cartesian projection of `sky.py` lines 86–97: from azimuth
and altitude (degrees) to an integer grid cell `(x, y)`. -/
noncomputable def project (grid_size : ℕ) (az alt : ℝ) : ℤ × ℤ :=
  let az_rad := math_radians az
  let r := (90 - alt) / 90 * ((grid_size : ℝ) / 2)
  let x := (grid_size : ℝ) / 2 + r * Real.sin az_rad
  let y := (grid_size : ℝ) / 2 - r * Real.cos az_rad
  (pyRound x, pyRound y)

/-- The three classes of displayed objects. -/
inductive ObjClass
| star
| sun
| moon

/-- A resolved object as appended to the `objects` list: name, azimuth and
altitude in degrees, and its display glyph. -/
structure ResolvedObject where
  name : String
  az : ℝ
  alt : ℝ
  symbol : Char

/-- A catalog star after the external astronomy library has resolved it to
local horizontal coordinates (the `altaz` value of the source loop). -/
structure StarAltAz where
  name : String
  az : ℝ
  alt : ℝ

/-- The visibility thresholds of the source: stars and the Moon require
altitude above 0°, the Sun above −18°. -/
def is_visible : ObjClass → ℝ → Prop
  | ObjClass.star, alt => alt > 0
  | ObjClass.sun, alt => alt > -18
  | ObjClass.moon, alt => alt > 0

/-- The object class a glyph stands for. -/
def classOf (o : ResolvedObject) : ObjClass :=
  if o.symbol = '🌞' then ObjClass.sun
  else if o.symbol = '🌕' then ObjClass.moon
  else ObjClass.star

/-- The object record the star loop appends for a visible catalog star. -/
def mkStarObject (s : StarAltAz) : ResolvedObject :=
  ⟨s.name, s.az, s.alt, '✦'⟩

/-- The `objects` list of `sky.py` lines 56–81: visible catalog stars in
catalog order, then the Sun if above −18°, then the Moon if above 0°. -/
noncomputable def buildObjects (stars : List StarAltAz)
    (sunAz sunAlt moonAz moonAlt : ℝ) : List ResolvedObject :=
  (stars.filterMap fun s => if s.alt > 0 then some (mkStarObject s) else none)
    ++ (if sunAlt > -18 then [⟨"Sun", sunAz, sunAlt, '🌞'⟩] else [])
    ++ (if moonAlt > 0 then [⟨"Moon", moonAz, moonAlt, '🌕'⟩] else [])

/-- One iteration of the placement loop (`sky.py` lines 86–100): project the
object and overwrite its cell, provided the cell is inside the grid. -/
noncomputable def placeObject (grid_size : ℕ) (sky : ℤ → ℤ → Char)
    (o : ResolvedObject) : ℤ → ℤ → Char :=
  let p := project grid_size o.az o.alt
  if 0 ≤ p.1 ∧ p.1 < (grid_size : ℤ) ∧ 0 ≤ p.2 ∧ p.2 < (grid_size : ℤ) then
    fun y x => if y = p.2 ∧ x = p.1 then o.symbol else sky y x
  else sky

/-- The grid after the whole placement loop, starting from the blank grid
(`np.full((grid_size, grid_size), ' ')`). -/
noncomputable def placeObjects (grid_size : ℕ) (objs : List ResolvedObject) :
    ℤ → ℤ → Char :=
  objs.foldl (placeObject grid_size) (fun _ _ => ' ')

/-- `'\n'.join(...)` on a list of lines. -/
def joinLines : List String → String
  | [] => ""
  | [s] => s
  | s :: t :: rest => s ++ "\n" ++ joinLines (t :: rest)

/-- The top/bottom border: `'+' + '-' * grid_size + '+'`. -/
def borderOf (gs : ℕ) : String :=
  "+" ++ String.mk (List.replicate gs '-') ++ "+"

/-- One interior row: `'|' + ''.join(row) + '|'`. -/
def rowOf (gs : ℕ) (sky : ℤ → ℤ → Char) (y : ℕ) : String :=
  "|" ++ String.mk ((List.range gs).map fun x : ℕ => sky (y : ℤ) (x : ℤ)) ++ "|"

/-- The rendered map string (`sky.py` lines 102–109): border, the grid rows
top to bottom, border, joined by newlines. -/
def renderGrid (gs : ℕ) (sky : ℤ → ℤ → Char) : String :=
  joinLines (borderOf gs :: (List.range gs).map (rowOf gs sky) ++ [borderOf gs])

/-- Python `str.replace` for a single-character pattern: every occurrence of
`c` is replaced by the character list `repl`. -/
def replaceChar (c : Char) (repl : List Char) : List Char → List Char
  | [] => []
  | a :: rest =>
    if a = c then repl ++ replaceChar c repl rest
    else a :: replaceChar c repl rest

/-- The replacement the source installs for `'*'`: wrap in yellow. -/
def yellowStar : List Char := "\x1b[93m*\x1b[0m".data

/-- The replacement the source installs for `'☼'`: wrap in red. -/
def redSun : List Char := "\x1b[91m☼\x1b[0m".data

/-- The replacement the source installs for `'◑'`: wrap in cyan. -/
def cyanMoon : List Char := "\x1b[96m◑\x1b[0m".data

/-- The color pass of `sky.py` lines 111–115: when color output is enabled
and stdout is a terminal, substitute `*`, then `☼`, then `◑`. -/
def applyColor (color_output isatty : Bool) (m : String) : String :=
  if color_output && isatty then
    String.mk (replaceChar '◑' cyanMoon
      (replaceChar '☼' redSun (replaceChar '*' yellowStar m.data)))
  else m

/-- Zero-padding of a decimal string to a fixed number of digits. -/
def padZeros (p : ℕ) (s : String) : String :=
  String.mk (List.replicate (p - s.length) '0') ++ s

/-- Python fixed-point formatting `f"\x7bx:.pf\x7d"` of a real value:
round-half-even at the last kept digit, then print sign, integer part, and
`p` fractional digits. -/
noncomputable def fmtFixed (p : ℕ) (x : ℝ) : String :=
  let n := (pyRound (x * (10 : ℝ) ^ p)).natAbs
  (if x < 0 then "-" else "")
    ++ toString (n / 10 ^ p) ++ "." ++ padZeros p (toString (n % 10 ^ p))

/-- One legend line (`sky.py` line 126). -/
noncomputable def legendLine (o : ResolvedObject) : String :=
  "- " ++ o.name ++ " at Azimuth: " ++ fmtFixed 2 o.az
    ++ "°, Altitude: " ++ fmtFixed 2 o.alt ++ "°"

/-- The legend block as written to the file: one line per object, each
terminated by a newline. -/
noncomputable def legendBlock (objs : List ResolvedObject) : String :=
  String.join (objs.map fun o => legendLine o ++ "\n")

/-- Everything the console run prints (each `print` appends a newline);
`locLine` and `dateLine` are the location and timestamp lines, formatted by
the same f-strings for console and file. -/
noncomputable def consoleReport (locLine dateLine sky_map : String)
    (objs : List ResolvedObject) : String :=
  "\nStar Map:\n" ++ locLine ++ "\n" ++ dateLine ++ "\n" ++ sky_map ++ "\n"
    ++ "\nVisible Objects:\n" ++ legendBlock objs

/-- Exactly what `sky.py` lines 131–138 write to the file.  Note the header:
the source writes the literal eight characters `\033[1m` (escaped
backslashes), not an ANSI escape. -/
noncomputable def fileContent (locLine dateLine sky_map : String)
    (objs : List ResolvedObject) : String :=
  "\\033[1mStar Map:\\033[0m\n" ++ locLine ++ "\n" ++ dateLine ++ "\n\n"
    ++ sky_map ++ "\n\n" ++ "Visible Objects:\n" ++ legendBlock objs

/-- The save filename, `ts` standing for the `strftime`-formatted UTC
timestamp `YYYYMMDD_HHMMSS`. -/
def savedFilename (ts : String) : String := "star_map_" ++ ts ++ ".txt"

/-- The confirmation printed after saving (`print` appends the newline). -/
def confirmationLine (ts : String) : String :=
  "\nStar map saved to " ++ savedFilename ts ++ "\n"

/-- The placement loop writes object `o` to cell `(x, y)`: the projected
cell is inside the grid and equals `(x, y)`. -/
noncomputable def writesTo (gs : ℕ) (o : ResolvedObject) (y x : ℤ) : Prop :=
  let p := project gs o.az o.alt
  (0 ≤ p.1 ∧ p.1 < (gs : ℤ) ∧ 0 ≤ p.2 ∧ p.2 < (gs : ℤ)) ∧ p.2 = y ∧ p.1 = x

/-- The shared tail of both reports: the rendered map, a blank line, the
legend heading, and the legend lines. -/
noncomputable def reportTail (sky_map : String) (objs : List ResolvedObject) : String :=
  sky_map ++ "\n" ++ "\nVisible Objects:\n" ++ legendBlock objs

/-- A sample location line for the report comparison. -/
def reportCexLoc : String := "Location: 51.4769° N, -0.0005° E"

/-- A sample timestamp line for the report comparison. -/
def reportCexDate : String := "Date and Time (UTC): 2026-10-12 00:00:00"

/-- A sample rendered map for the report comparison. -/
def reportCexMap : String := "+--+\n|  |\n|  |\n+--+"

theorem pyRound_intCast (n : ℤ) : pyRound (n : ℝ) = n := by
  unfold pyRound
  rw [Int.fract_intCast, Int.floor_intCast]
  norm_num

theorem floor_le_pyRound (v : ℝ) : ⌊v⌋ ≤ pyRound v := by
  unfold pyRound
  split
  · exact le_refl _
  · split
    · exact le_of_lt (lt_add_one _)
    · split
      · exact le_refl _
      · exact le_of_lt (lt_add_one _)

theorem pyRound_le_ceil (v : ℝ) : pyRound v ≤ ⌈v⌉ := by
  have hfl : (⌊v⌋ : ℝ) + Int.fract v = v := Int.floor_add_fract v
  have hup : Int.fract v > 0 → ⌊v⌋ + 1 ≤ ⌈v⌉ := by
    intro hpos
    have h1 : (⌊v⌋ : ℝ) < v := by linarith
    have h2 : ⌊v⌋ < ⌈v⌉ := Int.lt_ceil.mpr h1
    omega
  unfold pyRound
  split
  · exact Int.floor_le_ceil v
  · next h =>
    have hpos : Int.fract v > 0 := by
      have := Int.fract_nonneg v
      by_contra hc
      push_neg at h hc
      have : Int.fract v = 0 := le_antisymm (by linarith) this
      rw [this] at h
      norm_num at h
    split
    · next h2 => exact hup (by linarith)
    · split
      · exact Int.floor_le_ceil v
      · exact hup hpos

theorem pyRound_nonneg (v : ℝ) (h : 0 ≤ v) : 0 ≤ pyRound v := by
  have h1 : (0 : ℤ) ≤ ⌊v⌋ := Int.le_floor.mpr (by exact_mod_cast h)
  exact le_trans h1 (floor_le_pyRound v)

theorem pyRound_le (v : ℝ) (n : ℤ) (h : v ≤ (n : ℝ)) : pyRound v ≤ n :=
  le_trans (pyRound_le_ceil v) (Int.ceil_le.mpr h)

/-- At the zenith (altitude 90°) the radius is 0, so the projection lands at
`round(grid_size / 2)` in both coordinates, whatever the azimuth. -/
theorem project_alt90 (gs : ℕ) (az : ℝ) :
    project gs az 90 = (pyRound ((gs : ℝ) / 2), pyRound ((gs : ℝ) / 2)) := by
  simp only [project, math_radians]
  norm_num

/-- Concrete projection at azimuth 90°, altitude 0°, grid size 50: the x
coordinate is exactly 50, one past the last valid column index. -/
theorem project_50_90_0 : project 50 90 0 = (50, 25) := by
  have hrad : (90 : ℝ) * Real.pi / 180 = Real.pi / 2 := by ring
  simp only [project, math_radians]
  rw [hrad, Real.sin_pi_div_two, Real.cos_pi_div_two]
  have hx : ((50 : ℕ) : ℝ) / 2 + ((90 : ℝ) - 0) / 90 * (((50 : ℕ) : ℝ) / 2) * 1
      = ((50 : ℤ) : ℝ) := by push_cast; ring
  have hy : ((50 : ℕ) : ℝ) / 2 - ((90 : ℝ) - 0) / 90 * (((50 : ℕ) : ℝ) / 2) * 0
      = ((25 : ℤ) : ℝ) := by push_cast; ring
  rw [hx, hy, pyRound_intCast, pyRound_intCast]

theorem pyRound_half_50 : pyRound (((50 : ℕ) : ℝ) / 2) = 25 := by
  have h : ((50 : ℕ) : ℝ) / 2 = ((25 : ℤ) : ℝ) := by push_cast; ring
  rw [h, pyRound_intCast]

theorem pyRound_half_2 : pyRound (((2 : ℕ) : ℝ) / 2) = 1 := by
  have h : ((2 : ℕ) : ℝ) / 2 = ((1 : ℤ) : ℝ) := by push_cast; ring
  rw [h, pyRound_intCast]

theorem placeObject_writes (gs : ℕ) (sky : ℤ → ℤ → Char) (o : ResolvedObject)
    (y x : ℤ) (h : writesTo gs o y x) :
    placeObject gs sky o y x = o.symbol := by
  obtain ⟨hb, hy, hx⟩ := h
  simp only [placeObject]
  rw [if_pos hb]
  exact if_pos ⟨hy.symm, hx.symm⟩

theorem placeObject_skip (gs : ℕ) (sky : ℤ → ℤ → Char) (o : ResolvedObject)
    (y x : ℤ) (h : ¬ writesTo gs o y x) :
    placeObject gs sky o y x = sky y x := by
  simp only [placeObject]
  by_cases hb : 0 ≤ (project gs o.az o.alt).1 ∧
      (project gs o.az o.alt).1 < (gs : ℤ) ∧
      0 ≤ (project gs o.az o.alt).2 ∧ (project gs o.az o.alt).2 < (gs : ℤ)
  · rw [if_pos hb]
    have hc : ¬ (y = (project gs o.az o.alt).2 ∧ x = (project gs o.az o.alt).1) := by
      intro hcell
      exact h ⟨hb, hcell.1.symm, hcell.2.symm⟩
    exact if_neg hc
  · rw [if_neg hb]

theorem foldl_place_skip (gs : ℕ) (y x : ℤ) :
    ∀ (l : List ResolvedObject) (init : ℤ → ℤ → Char),
      (∀ o ∈ l, ¬ writesTo gs o y x) →
      l.foldl (placeObject gs) init y x = init y x := by
  intro l
  induction l with
  | nil => intro init _; rfl
  | cons a t ih =>
    intro init h
    have ha : ¬ writesTo gs a y x := h a (List.mem_cons_self a t)
    have ht : ∀ o ∈ t, ¬ writesTo gs o y x := fun o ho => h o (List.mem_cons_of_mem a ho)
    calc (a :: t).foldl (placeObject gs) init y x
        = t.foldl (placeObject gs) (placeObject gs init a) y x := rfl
      _ = placeObject gs init a y x := ih (placeObject gs init a) ht
      _ = init y x := placeObject_skip gs init a y x ha

/-- Every grid cell holds the blank glyph or the symbol of some processed
object. -/
theorem foldl_place_mem (gs : ℕ) (y x : ℤ) :
    ∀ (l : List ResolvedObject) (init : ℤ → ℤ → Char),
      l.foldl (placeObject gs) init y x = init y x ∨
        ∃ o ∈ l, l.foldl (placeObject gs) init y x = o.symbol := by
  intro l
  induction l with
  | nil => intro init; exact Or.inl rfl
  | cons a t ih =>
    intro init
    have hstep : placeObject gs init a y x = init y x ∨
        placeObject gs init a y x = a.symbol := by
      by_cases hw : writesTo gs a y x
      · exact Or.inr (placeObject_writes gs init a y x hw)
      · exact Or.inl (placeObject_skip gs init a y x hw)
    rcases ih (placeObject gs init a) with h | ⟨o, ho, hsym⟩
    · have hfold : (a :: t).foldl (placeObject gs) init y x
          = placeObject gs init a y x := h
      rcases hstep with h1 | h1
      · exact Or.inl (hfold.trans h1)
      · exact Or.inr ⟨a, List.mem_cons_self a t, hfold.trans h1⟩
    · exact Or.inr ⟨o, List.mem_cons_of_mem a ho, hsym⟩

theorem placeObjects_mem (gs : ℕ) (objs : List ResolvedObject) (y x : ℤ) :
    placeObjects gs objs y x = ' ' ∨
      ∃ o ∈ objs, placeObjects gs objs y x = o.symbol :=
  foldl_place_mem gs y x objs (fun _ _ => ' ')

/-- Every glyph the pipeline ever appends is `✦`, `🌞`, or `🌕`. -/
theorem buildObjects_symbol (stars : List StarAltAz)
    (sunAz sunAlt moonAz moonAlt : ℝ) (o : ResolvedObject)
    (h : o ∈ buildObjects stars sunAz sunAlt moonAz moonAlt) :
    o.symbol = '✦' ∨ o.symbol = '🌞' ∨ o.symbol = '🌕' := by
  simp only [buildObjects, List.mem_append, List.mem_filterMap] at h
  rcases h with (⟨s, _, hs⟩ | hsun) | hmoon
  · split at hs
    · cases hs
      exact Or.inl rfl
    · cases hs
  · split at hsun
    · rcases List.mem_singleton.mp hsun with rfl
      exact Or.inr (Or.inl rfl)
    · cases hsun
  · split at hmoon
    · rcases List.mem_singleton.mp hmoon with rfl
      exact Or.inr (Or.inr rfl)
    · cases hmoon

theorem mem_joinLines (c : Char) :
    ∀ L : List String, c ∈ (joinLines L).data → c = '\n' ∨ ∃ s ∈ L, c ∈ s.data := by
  intro L
  induction L with
  | nil => intro h; cases h
  | cons a t ih =>
    cases t with
    | nil =>
      intro h
      exact Or.inr ⟨a, List.mem_singleton.mpr rfl, h⟩
    | cons b u =>
      intro h
      rw [show joinLines (a :: b :: u) = a ++ "\n" ++ joinLines (b :: u) from rfl,
        String.data_append, String.data_append] at h
      rcases List.mem_append.mp h with h1 | h2
      · rcases List.mem_append.mp h1 with h3 | h4
        · exact Or.inr ⟨a, List.mem_cons_self a _, h3⟩
        · rcases List.mem_singleton.mp h4 with rfl
          exact Or.inl rfl
      · rcases ih h2 with h5 | ⟨s, hs, hcs⟩
        · exact Or.inl h5
        · exact Or.inr ⟨s, List.mem_cons_of_mem a hs, hcs⟩

theorem mem_borderOf (c : Char) (gs : ℕ) (h : c ∈ (borderOf gs).data) :
    c = '+' ∨ c = '-' := by
  rw [borderOf, String.data_append, String.data_append] at h
  rcases List.mem_append.mp h with h1 | h2
  · rcases List.mem_append.mp h1 with h3 | h4
    · exact Or.inl (List.mem_singleton.mp h3)
    · exact Or.inr (List.eq_of_mem_replicate h4)
  · exact Or.inl (List.mem_singleton.mp h2)

theorem mem_rowOf (c : Char) (gs : ℕ) (sky : ℤ → ℤ → Char) (y : ℕ)
    (h : c ∈ (rowOf gs sky y).data) :
    c = '|' ∨ ∃ yi xi : ℤ, c = sky yi xi := by
  rw [rowOf, String.data_append, String.data_append] at h
  rcases List.mem_append.mp h with h1 | h2
  · rcases List.mem_append.mp h1 with h3 | h4
    · exact Or.inl (List.mem_singleton.mp h3)
    · rcases List.mem_map.mp h4 with ⟨x, _, hx⟩
      exact Or.inr ⟨(y : ℤ), (x : ℤ), hx.symm⟩
  · exact Or.inl (List.mem_singleton.mp h2)

/-- Every character of the rendered map is part of the frame, a newline, or
a grid cell. -/
theorem mem_renderGrid (c : Char) (gs : ℕ) (sky : ℤ → ℤ → Char)
    (h : c ∈ (renderGrid gs sky).data) :
    c = '+' ∨ c = '-' ∨ c = '|' ∨ c = '\n' ∨ ∃ yi xi : ℤ, c = sky yi xi := by
  rcases mem_joinLines c _ h with hnl | ⟨s, hs, hcs⟩
  · exact Or.inr (Or.inr (Or.inr (Or.inl hnl)))
  · rcases List.mem_cons.mp hs with rfl | hs2
    · rcases mem_borderOf c gs hcs with h1 | h1
      · exact Or.inl h1
      · exact Or.inr (Or.inl h1)
    · rcases List.mem_append.mp hs2 with h3 | h4
      · rcases List.mem_map.mp h3 with ⟨y, _, hy⟩
        rcases mem_rowOf c gs sky y (hy ▸ hcs) with h5 | h5
        · exact Or.inr (Or.inr (Or.inl h5))
        · exact Or.inr (Or.inr (Or.inr (Or.inr h5)))
      · rcases List.mem_singleton.mp h4 with rfl
        rcases mem_borderOf c gs hcs with h1 | h1
        · exact Or.inl h1
        · exact Or.inr (Or.inl h1)

theorem placeObject_oob (gs : ℕ) (sky : ℤ → ℤ → Char) (o : ResolvedObject)
    (h : ¬ (0 ≤ (project gs o.az o.alt).1 ∧ (project gs o.az o.alt).1 < (gs : ℤ) ∧
      0 ≤ (project gs o.az o.alt).2 ∧ (project gs o.az o.alt).2 < (gs : ℤ))) :
    placeObject gs sky o = sky := by
  simp only [placeObject]
  exact if_neg h

theorem replaceChar_of_not_mem (c : Char) (repl : List Char) :
    ∀ l : List Char, c ∉ l → replaceChar c repl l = l := by
  intro l
  induction l with
  | nil => intro _; rfl
  | cons a t ih =>
    intro h
    have ha : ¬ a = c := fun hac => h (hac ▸ List.mem_cons_self a t)
    have ht : c ∉ t := fun hct => h (List.mem_cons_of_mem a hct)
    rw [replaceChar, if_neg ha, ih ht]

/-- No character of a map rendered from the real pipeline is one of the
three glyphs the color pass searches for. -/
theorem renderGrid_no_color_target (gs : ℕ) (stars : List StarAltAz)
    (sunAz sunAlt moonAz moonAlt : ℝ) (c : Char)
    (h : c ∈ (renderGrid gs
      (placeObjects gs (buildObjects stars sunAz sunAlt moonAz moonAlt))).data) :
    c ≠ '*' ∧ c ≠ '☼' ∧ c ≠ '◑' := by
  rcases mem_renderGrid c gs _ h with h1 | h1 | h1 | h1 | ⟨yi, xi, hcell⟩
  · subst h1; refine ⟨by decide, by decide, by decide⟩
  · subst h1; refine ⟨by decide, by decide, by decide⟩
  · subst h1; refine ⟨by decide, by decide, by decide⟩
  · subst h1; refine ⟨by decide, by decide, by decide⟩
  · rcases placeObjects_mem gs _ yi xi with hblank | ⟨o, ho, hsym⟩
    · rw [hcell, hblank]; refine ⟨by decide, by decide, by decide⟩
    · rcases buildObjects_symbol stars sunAz sunAlt moonAz moonAlt o ho with
        h2 | h2 | h2 <;>
        rw [hcell, hsym, h2] <;> refine ⟨by decide, by decide, by decide⟩

/-- C1: the projected cell is computed exactly by
`r = (90 - alt) / 90 * (grid_size / 2)`,
`x = round(grid_size/2 + r*sin(radians az))`,
`y = round(grid_size/2 - r*cos(radians az))`, and the projection is a pure
function of `(az, alt, grid_size)`: identical inputs give identical cells. -/
theorem proj_formula_deterministic :
    (∀ (gs : ℕ) (az alt : ℝ),
      project gs az alt =
        (pyRound ((gs : ℝ) / 2 +
            (90 - alt) / 90 * ((gs : ℝ) / 2) * Real.sin (az * Real.pi / 180)),
         pyRound ((gs : ℝ) / 2 -
            (90 - alt) / 90 * ((gs : ℝ) / 2) * Real.cos (az * Real.pi / 180)))) ∧
    (∀ (gs₁ gs₂ : ℕ) (az₁ az₂ alt₁ alt₂ : ℝ),
      gs₁ = gs₂ → az₁ = az₂ → alt₁ = alt₂ →
      project gs₁ az₁ alt₁ = project gs₂ az₂ alt₂) := by
  constructor
  · intro gs az alt
    rfl
  · intro gs₁ gs₂ az₁ az₂ alt₁ alt₂ h1 h2 h3
    rw [h1, h2, h3]

theorem proj_formula_deterministic_witness :
    project 50 0 90 =
      (pyRound (((50 : ℕ) : ℝ) / 2 +
          (90 - (90 : ℝ)) / 90 * (((50 : ℕ) : ℝ) / 2) * Real.sin (0 * Real.pi / 180)),
       pyRound (((50 : ℕ) : ℝ) / 2 -
          (90 - (90 : ℝ)) / 90 * (((50 : ℕ) : ℝ) / 2) * Real.cos (0 * Real.pi / 180))) ∧
    project 50 0 90 = project 50 0 90 :=
  ⟨proj_formula_deterministic.1 50 0 90,
   proj_formula_deterministic.2 50 50 0 0 90 90 rfl rfl rfl⟩

/-- C4 (amended): for azimuth in `[0°, 360°)`, altitude in `[0°, 90°]` and
`grid_size ≥ 2`, the projected cell lies within `[0, grid_size]` — the upper
bound `grid_size` itself is attainable (see the counterexample), so the
out-of-bounds drop branch is reachable at the horizon. -/
theorem projection_in_range_amended (gs : ℕ) (az alt : ℝ)
    (haz0 : 0 ≤ az) (haz1 : az < 360) (halt0 : 0 ≤ alt) (halt1 : alt ≤ 90)
    (hgs : 2 ≤ gs) :
    0 ≤ (project gs az alt).1 ∧ (project gs az alt).1 ≤ (gs : ℤ) ∧
    0 ≤ (project gs az alt).2 ∧ (project gs az alt).2 ≤ (gs : ℤ) := by
  have hs1 := Real.sin_le_one (math_radians az)
  have hs2 := Real.neg_one_le_sin (math_radians az)
  have hc1 := Real.cos_le_one (math_radians az)
  have hc2 := Real.neg_one_le_cos (math_radians az)
  have hgr : (0 : ℝ) ≤ (gs : ℝ) := Nat.cast_nonneg gs
  set r := (90 - alt) / 90 * ((gs : ℝ) / 2) with hrdef
  have hr0 : 0 ≤ r := by
    apply mul_nonneg
    · apply div_nonneg <;> linarith
    · linarith
  have hr1 : r ≤ (gs : ℝ) / 2 := by
    have h1 : (90 - alt) / 90 ≤ 1 := (div_le_one (by norm_num)).mpr (by linarith)
    nlinarith
  have hxlo : 0 ≤ (gs : ℝ) / 2 + r * Real.sin (math_radians az) := by nlinarith
  have hxhi : (gs : ℝ) / 2 + r * Real.sin (math_radians az) ≤ (gs : ℝ) := by nlinarith
  have hylo : 0 ≤ (gs : ℝ) / 2 - r * Real.cos (math_radians az) := by nlinarith
  have hyhi : (gs : ℝ) / 2 - r * Real.cos (math_radians az) ≤ (gs : ℝ) := by nlinarith
  have hproj : project gs az alt =
      (pyRound ((gs : ℝ) / 2 + r * Real.sin (math_radians az)),
       pyRound ((gs : ℝ) / 2 - r * Real.cos (math_radians az))) := rfl
  rw [hproj]
  refine ⟨pyRound_nonneg _ hxlo, ?_, pyRound_nonneg _ hylo, ?_⟩
  · exact pyRound_le _ (gs : ℤ) (by push_cast; exact hxhi)
  · exact pyRound_le _ (gs : ℤ) (by push_cast; exact hyhi)

theorem projection_in_range_amended_witness :
    0 ≤ (project 2 0 90).1 ∧ (project 2 0 90).1 ≤ ((2 : ℕ) : ℤ) ∧
    0 ≤ (project 2 0 90).2 ∧ (project 2 0 90).2 ≤ ((2 : ℕ) : ℤ) :=
  projection_in_range_amended 2 0 90 (by norm_num) (by norm_num) (by norm_num)
    (by norm_num) (by norm_num)

/-- C4 counterexample: the input `az = 90°, alt = 0°, grid_size = 50`
satisfies every range premise of the claim, yet its projected x coordinate
is exactly 50, outside `[0, 50)` — the drop branch is reachable for an
object on the horizon. -/
theorem projection_in_range_cex :
    ((0 : ℝ) ≤ 90 ∧ (90 : ℝ) < 360 ∧ (0 : ℝ) ≤ 0 ∧ (0 : ℝ) ≤ 90 ∧ 2 ≤ 50) ∧
    project 50 90 0 = (50, 25) ∧
    ¬ ((project 50 90 0).1 < ((50 : ℕ) : ℤ)) := by
  refine ⟨by norm_num, project_50_90_0, ?_⟩
  rw [project_50_90_0]
  norm_num

/-- C5: an object whose projected cell falls outside `[0, grid_size)` in
either axis contributes nothing to the grid (the run is unchanged by
removing it, and placement is a total function, so no error is possible),
yet its legend line is still produced. -/
theorem out_of_bounds_dropped (gs : ℕ) (pre post : List ResolvedObject)
    (o : ResolvedObject)
    (h : ¬ (0 ≤ (project gs o.az o.alt).1 ∧ (project gs o.az o.alt).1 < (gs : ℤ) ∧
      0 ≤ (project gs o.az o.alt).2 ∧ (project gs o.az o.alt).2 < (gs : ℤ))) :
    placeObjects gs (pre ++ o :: post) = placeObjects gs (pre ++ post) ∧
    (pre ++ o :: post).map legendLine
      = pre.map legendLine ++ legendLine o :: post.map legendLine := by
  constructor
  · unfold placeObjects
    rw [List.foldl_append, List.foldl_append, List.foldl_cons,
      placeObject_oob gs _ o h]
  · simp

theorem out_of_bounds_dropped_witness :
    placeObjects 50 [⟨"Rigel", 90, 0, '✦'⟩] = placeObjects 50 [] ∧
    [(⟨"Rigel", 90, 0, '✦'⟩ : ResolvedObject)].map legendLine
      = [legendLine ⟨"Rigel", 90, 0, '✦'⟩] :=
  out_of_bounds_dropped 50 [] [] ⟨"Rigel", 90, 0, '✦'⟩
    (by rw [show (⟨"Rigel", 90, 0, '✦'⟩ : ResolvedObject).az = 90 from rfl,
          show (⟨"Rigel", 90, 0, '✦'⟩ : ResolvedObject).alt = 0 from rfl,
          project_50_90_0]
        norm_num)

/-- C2: inclusion in the `objects` list — and hence in everything derived
from it, grid and legend alike — is decided exactly by the class-specific
threshold: a catalog star is included iff its altitude exceeds 0°, the Sun
iff its altitude exceeds −18°, the Moon iff its altitude exceeds 0°, and
every included object passes its class's check. -/
theorem visibility_gate (stars : List StarAltAz)
    (sunAz sunAlt moonAz moonAlt : ℝ) :
    (∀ s ∈ stars,
      (mkStarObject s ∈ buildObjects stars sunAz sunAlt moonAz moonAlt ↔
        is_visible ObjClass.star s.alt)) ∧
    ((⟨"Sun", sunAz, sunAlt, '🌞'⟩ : ResolvedObject)
        ∈ buildObjects stars sunAz sunAlt moonAz moonAlt ↔
      is_visible ObjClass.sun sunAlt) ∧
    ((⟨"Moon", moonAz, moonAlt, '🌕'⟩ : ResolvedObject)
        ∈ buildObjects stars sunAz sunAlt moonAz moonAlt ↔
      is_visible ObjClass.moon moonAlt) ∧
    (∀ o ∈ buildObjects stars sunAz sunAlt moonAz moonAlt,
      is_visible (classOf o) o.alt) := by
  refine ⟨?_, ?_, ?_, ?_⟩
  · intro s hs
    simp only [is_visible]
    constructor
    · intro hmem
      simp only [buildObjects, List.mem_append, List.mem_filterMap] at hmem
      rcases hmem with (⟨a, _, hsome⟩ | hsun) | hmoon
      · split at hsome
        · next hgt =>
          have heq : mkStarObject a = mkStarObject s := Option.some.inj hsome
          have halt : a.alt = s.alt := congrArg ResolvedObject.alt heq
          exact halt ▸ hgt
        · cases hsome
      · exfalso
        split at hsun
        · have heq := List.mem_singleton.mp hsun
          have hsym : (mkStarObject s).symbol = '🌞' := by rw [heq]
          exact absurd (show ('✦' : Char) = '🌞' from hsym) (by decide)
        · cases hsun
      · exfalso
        split at hmoon
        · have heq := List.mem_singleton.mp hmoon
          have hsym : (mkStarObject s).symbol = '🌕' := by rw [heq]
          exact absurd (show ('✦' : Char) = '🌕' from hsym) (by decide)
        · cases hmoon
    · intro hv
      simp only [buildObjects, List.mem_append, List.mem_filterMap]
      exact Or.inl (Or.inl ⟨s, hs, by rw [if_pos hv]⟩)
  · simp only [is_visible]
    constructor
    · intro hmem
      simp only [buildObjects, List.mem_append, List.mem_filterMap] at hmem
      rcases hmem with (⟨a, _, hsome⟩ | hsun) | hmoon
      · exfalso
        split at hsome
        · have hsym : (mkStarObject a).symbol = '🌞' :=
            congrArg ResolvedObject.symbol (Option.some.inj hsome)
          exact absurd (show ('✦' : Char) = '🌞' from hsym) (by decide)
        · cases hsome
      · split at hsun
        · next hgt => exact hgt
        · cases hsun
      · exfalso
        split at hmoon
        · have heq := List.mem_singleton.mp hmoon
          have hsym : ('🌞' : Char) = '🌕' := congrArg ResolvedObject.symbol heq
          exact absurd hsym (by decide)
        · cases hmoon
    · intro hv
      simp only [buildObjects, List.mem_append]
      exact Or.inl (Or.inr (by rw [if_pos hv]; exact List.mem_singleton.mpr rfl))
  · simp only [is_visible]
    constructor
    · intro hmem
      simp only [buildObjects, List.mem_append, List.mem_filterMap] at hmem
      rcases hmem with (⟨a, _, hsome⟩ | hsun) | hmoon
      · exfalso
        split at hsome
        · have hsym : (mkStarObject a).symbol = '🌕' :=
            congrArg ResolvedObject.symbol (Option.some.inj hsome)
          exact absurd (show ('✦' : Char) = '🌕' from hsym) (by decide)
        · cases hsome
      · exfalso
        split at hsun
        · have heq := List.mem_singleton.mp hsun
          have hsym : ('🌕' : Char) = '🌞' := congrArg ResolvedObject.symbol heq
          exact absurd hsym (by decide)
        · cases hsun
      · split at hmoon
        · next hgt => exact hgt
        · cases hmoon
    · intro hv
      simp only [buildObjects, List.mem_append]
      exact Or.inr (by rw [if_pos hv]; exact List.mem_singleton.mpr rfl)
  · intro o ho
    simp only [buildObjects, List.mem_append, List.mem_filterMap] at ho
    rcases ho with (⟨a, _, hsome⟩ | hsun) | hmoon
    · split at hsome
      · next hgt =>
        cases Option.some.inj hsome
        simp only [classOf, mkStarObject]
        rw [if_neg (by decide), if_neg (by decide)]
        exact hgt
      · cases hsome
    · split at hsun
      · next hgt =>
        cases List.mem_singleton.mp hsun
        simp only [classOf]
        rw [if_pos trivial]
        exact hgt
      · cases hsun
    · split at hmoon
      · next hgt =>
        cases List.mem_singleton.mp hmoon
        simp only [classOf]
        rw [if_pos trivial]
        exact hgt
      · cases hmoon

theorem visibility_gate_witness :
    (mkStarObject ⟨"Sirius", 10, 20⟩
        ∈ buildObjects [⟨"Sirius", 10, 20⟩] 100 (-30) 200 5 ↔
      is_visible ObjClass.star (⟨"Sirius", 10, 20⟩ : StarAltAz).alt) ∧
    ((⟨"Sun", 100, -30, '🌞'⟩ : ResolvedObject)
        ∈ buildObjects [⟨"Sirius", 10, 20⟩] 100 (-30) 200 5 ↔
      is_visible ObjClass.sun (-30)) :=
  ⟨(visibility_gate [⟨"Sirius", 10, 20⟩] 100 (-30) 200 5).1
      ⟨"Sirius", 10, 20⟩ (List.mem_singleton.mpr rfl),
   (visibility_gate [⟨"Sirius", 10, 20⟩] 100 (-30) 200 5).2.1⟩

/-- C3: when several objects project (in bounds) to the same cell, the glyph
retained there is the last-processed one: for any decomposition of the
processing list with `o₂` the last object writing to the cell, the final
grid shows `o₂`'s glyph.  The processing order is the `objects` list order:
catalog stars in catalog order, then Sun, then Moon (see `buildObjects`). -/
theorem collision_last_write_wins (gs : ℕ) (pre mid post : List ResolvedObject)
    (o₁ o₂ : ResolvedObject) (y x : ℤ)
    (h₁ : writesTo gs o₁ y x) (h₂ : writesTo gs o₂ y x)
    (hpost : ∀ o ∈ post, ¬ writesTo gs o y x) :
    placeObjects gs (pre ++ o₁ :: mid ++ o₂ :: post) y x = o₂.symbol := by
  have hl : pre ++ o₁ :: mid ++ o₂ :: post = ((pre ++ o₁ :: mid) ++ [o₂]) ++ post := by
    simp
  rw [placeObjects, hl, List.foldl_append, List.foldl_append]
  rw [foldl_place_skip gs y x post _ hpost]
  exact placeObject_writes gs _ o₂ y x h₂

theorem collision_last_write_wins_witness :
    placeObjects 2 [⟨"Altair", 0, 90, '✦'⟩, ⟨"Moon", 0, 90, '🌕'⟩] 1 1
      = (⟨"Moon", 0, 90, '🌕'⟩ : ResolvedObject).symbol :=
  collision_last_write_wins 2 [] [] [] ⟨"Altair", 0, 90, '✦'⟩ ⟨"Moon", 0, 90, '🌕'⟩ 1 1
    (by simp only [writesTo]
        rw [project_alt90, pyRound_half_2]
        norm_num)
    (by simp only [writesTo]
        rw [project_alt90, pyRound_half_2]
        norm_num)
    (by intro o ho; cases ho)

/-- Evaluation rule for the fixed-point formatter on a nonnegative value
whose scaled form is an exact integer. -/
theorem fmtFixed_eval (p : ℕ) (x : ℝ) (n : ℤ) (hx : ¬ x < 0)
    (h : x * (10 : ℝ) ^ p = (n : ℝ)) :
    fmtFixed p x = toString (n.natAbs / 10 ^ p) ++ "."
      ++ padZeros p (toString (n.natAbs % 10 ^ p)) := by
  simp only [fmtFixed, h, pyRound_intCast, hx, if_false]
  rfl

theorem fmtFixed_0 : fmtFixed 2 (0 : ℝ) = "0.00" := by
  rw [fmtFixed_eval 2 0 0 (by norm_num) (by norm_num)]
  decide

theorem fmtFixed_90 : fmtFixed 2 (90 : ℝ) = "90.00" := by
  rw [fmtFixed_eval 2 90 9000 (by norm_num) (by norm_num)]
  decide

/-- C6: an object at the zenith (altitude 90°) projects to
`(round(grid_size/2), round(grid_size/2))` for every azimuth — the exact
center cell `(grid_size/2, grid_size/2)` whenever `grid_size` is even; in
particular for `grid_size = 50` a star at azimuth 0°, altitude 90° is placed
at cell `(25, 25)` and its legend line reads
`- Vega at Azimuth: 0.00°, Altitude: 90.00°`. -/
theorem zenith_center (gs : ℕ) (az : ℝ) :
    project gs az 90 = (pyRound ((gs : ℝ) / 2), pyRound ((gs : ℝ) / 2)) ∧
    project (2 * gs) az 90 = ((gs : ℤ), (gs : ℤ)) ∧
    project 50 az 90 = (25, 25) ∧
    placeObjects 50 [⟨"Vega", az, 90, '✦'⟩] 25 25 = '✦' ∧
    legendLine ⟨"Vega", 0, 90, '✦'⟩ = "- Vega at Azimuth: 0.00°, Altitude: 90.00°" := by
  have h50 : project 50 az 90 = (25, 25) := by
    rw [project_alt90, pyRound_half_50]
  refine ⟨project_alt90 gs az, ?_, h50, ?_, ?_⟩
  · rw [project_alt90]
    have h : ((2 * gs : ℕ) : ℝ) / 2 = ((gs : ℤ) : ℝ) := by push_cast; ring
    rw [h, pyRound_intCast]
  · show placeObject 50 (fun _ _ => ' ') ⟨"Vega", az, 90, '✦'⟩ 25 25 = '✦'
    apply placeObject_writes
    simp only [writesTo]
    rw [h50]
    norm_num
  · simp only [legendLine, fmtFixed_0, fmtFixed_90]
    decide

/-- C7: for every grid size and every object list the rendered map is the
border `'+' + '-'*N + '+'`, then exactly N rows, each `'|'` + N cell glyphs
+ `'|'`, then the same border — the shape depends only on `grid_size` — and
with no objects every cell is blank and the legend lists nothing. -/
theorem grid_structure (gs : ℕ) (objs : List ResolvedObject) :
    renderGrid gs (placeObjects gs objs)
      = joinLines (borderOf gs ::
          (List.range gs).map (rowOf gs (placeObjects gs objs)) ++ [borderOf gs]) ∧
    (borderOf gs).data = '+' :: List.replicate gs '-' ++ ['+'] ∧
    ((List.range gs).map (rowOf gs (placeObjects gs objs))).length = gs ∧
    (∀ y : ℕ, y < gs →
      (rowOf gs (placeObjects gs objs) y).data
        = '|' :: ((List.range gs).map fun x : ℕ =>
            placeObjects gs objs (y : ℤ) (x : ℤ)) ++ ['|'] ∧
      (rowOf gs (placeObjects gs objs) y).length = gs + 2) ∧
    placeObjects gs [] = (fun _ _ => ' ') ∧
    (([] : List ResolvedObject).map legendLine) = [] := by
  refine ⟨rfl, rfl, by simp, ?_, rfl, rfl⟩
  intro y _
  constructor
  · rfl
  · show (rowOf gs (placeObjects gs objs) y).data.length = gs + 2
    rw [show (rowOf gs (placeObjects gs objs) y).data
      = '|' :: ((List.range gs).map fun x : ℕ =>
          placeObjects gs objs (y : ℤ) (x : ℤ)) ++ ['|'] from rfl]
    simp only [List.length_append, List.length_cons, List.length_map,
      List.length_range, List.length_singleton, List.length_nil]

theorem grid_structure_witness :
    ((List.range 1).map (rowOf 1 (placeObjects 1 []))).length = 1 ∧
    (rowOf 1 (placeObjects 1 []) 0).length = 1 + 2 :=
  ⟨(grid_structure 1 []).2.2.1, ((grid_structure 1 []).2.2.2.1 0 (by norm_num)).2⟩

/-- The grid produced by placing the single zenith star on a 2×2 grid. -/
theorem placeObjects_vega (az : ℝ) :
    placeObjects 2 [⟨"Vega", az, 90, '✦'⟩]
      = fun y x => if y = 1 ∧ x = 1 then '✦' else ' ' := by
  funext y x
  show placeObject 2 (fun _ _ => ' ') ⟨"Vega", az, 90, '✦'⟩ y x = _
  have hp : project 2 az 90 = (1, 1) := by
    rw [project_alt90, pyRound_half_2]
  simp only [placeObject, hp]
  norm_num

/-- C8 (code bug): with color enabled and stdout a terminal, a map holding a
star glyph passes through the color stage unchanged — the substitution
targets `*`, `☼`, `◑`, which never occur — so no ANSI escape (`ESC`,
`'\x1b'`) is ever emitted, although the claim (and the source's own
comments) promise colored star/Sun/Moon glyphs. -/
theorem color_never_applied :
    renderGrid 2 (placeObjects 2 [⟨"Vega", 0, 90, '✦'⟩]) = "+--+\n|  |\n| ✦|\n+--+" ∧
    applyColor true true (renderGrid 2 (placeObjects 2 [⟨"Vega", 0, 90, '✦'⟩]))
      = renderGrid 2 (placeObjects 2 [⟨"Vega", 0, 90, '✦'⟩]) ∧
    '✦' ∈ (renderGrid 2 (placeObjects 2 [⟨"Vega", 0, 90, '✦'⟩])).data ∧
    '\x1b' ∉ (applyColor true true
      (renderGrid 2 (placeObjects 2 [⟨"Vega", 0, 90, '✦'⟩]))).data := by
  have hr : renderGrid 2 (placeObjects 2 [⟨"Vega", 0, 90, '✦'⟩])
      = "+--+\n|  |\n| ✦|\n+--+" := by
    rw [placeObjects_vega]
    decide
  refine ⟨hr, ?_, ?_, ?_⟩ <;> rw [hr] <;> decide

/-- C10: the rendered map contains none of the glyphs `*`, `☼`, `◑` that the
color pass searches for — its only non-blank glyphs are `✦`, `🌞`, `🌕` — so
the map string is byte-identical whatever the color flag and terminal state:
the color option has no influence on the output. -/
theorem color_flag_no_effect (gs : ℕ) (stars : List StarAltAz)
    (sunAz sunAlt moonAz moonAlt : ℝ) (color_output isatty : Bool) :
    applyColor color_output isatty
      (renderGrid gs (placeObjects gs (buildObjects stars sunAz sunAlt moonAz moonAlt)))
      = renderGrid gs (placeObjects gs (buildObjects stars sunAz sunAlt moonAz moonAlt)) := by
  unfold applyColor
  split
  · have h1 : '*' ∉ (renderGrid gs
        (placeObjects gs (buildObjects stars sunAz sunAlt moonAz moonAlt))).data :=
      fun hc => (renderGrid_no_color_target gs stars sunAz sunAlt moonAz moonAlt '*' hc).1 rfl
    have h2 : '☼' ∉ (renderGrid gs
        (placeObjects gs (buildObjects stars sunAz sunAlt moonAz moonAlt))).data :=
      fun hc => (renderGrid_no_color_target gs stars sunAz sunAlt moonAz moonAlt '☼' hc).2.1 rfl
    have h3 : '◑' ∉ (renderGrid gs
        (placeObjects gs (buildObjects stars sunAz sunAlt moonAz moonAlt))).data :=
      fun hc => (renderGrid_no_color_target gs stars sunAz sunAlt moonAz moonAlt '◑' hc).2.2 rfl
    rw [replaceChar_of_not_mem '*' yellowStar _ h1,
      replaceChar_of_not_mem '☼' redSun _ h2,
      replaceChar_of_not_mem '◑' cyanMoon _ h3]
  · rfl

/-- C9 (amended): the saved file is named `star_map_<timestamp>.txt` and a
confirmation line naming it is printed; the file shares the console report's
location line, timestamp line, grid and legend verbatim, but its header line
is the literal text `\033[1mStar Map:\033[0m` (the source escapes the
backslashes) where the console prints `Star Map:` after a blank line, and
the file holds one extra blank line between the timestamp and the grid. -/
theorem report_file_relation (locLine dateLine sky_map ts : String)
    (objs : List ResolvedObject) :
    savedFilename ts = "star_map_" ++ ts ++ ".txt" ∧
    consoleReport locLine dateLine sky_map objs
      = "\nStar Map:\n" ++ locLine ++ "\n" ++ dateLine ++ "\n"
        ++ reportTail sky_map objs ∧
    fileContent locLine dateLine sky_map objs
      = "\\033[1mStar Map:\\033[0m\n" ++ locLine ++ "\n" ++ dateLine ++ "\n" ++ "\n"
        ++ reportTail sky_map objs ∧
    confirmationLine ts = "\nStar map saved to " ++ savedFilename ts ++ "\n" := by
  refine ⟨rfl, ?_, ?_, rfl⟩
  · apply String.ext
    simp only [consoleReport, reportTail, String.data_append, List.append_assoc]
  · apply String.ext
    simp only [fileContent, reportTail, String.data_append, List.append_assoc]
    have h1 : ∀ l : List Char, "\n\n".data ++ l = "\n".data ++ ("\n".data ++ l) :=
      fun _ => rfl
    have h2 : ∀ l : List Char, "\n\n".data ++ ("Visible Objects:\n".data ++ l)
        = "\n".data ++ ("\nVisible Objects:\n".data ++ l) := fun _ => rfl
    rw [h2, h1]

/-- C9 counterexample: at a concrete location line, timestamp line, map and
empty object list, the file's content differs from the console report (the
header line and blank-line layout do not match). -/
theorem report_file_cex :
    consoleReport reportCexLoc reportCexDate reportCexMap []
      ≠ fileContent reportCexLoc reportCexDate reportCexMap [] := by
  decide

end Sky

